import Mathlib

/-!
Verification of the URL-shortener core (`src/backend/app.py`) against its
natural-language specification.

Shallow embedding conventions:
* Timestamps are integers counted in milliseconds; `datetime.now()` is
  modelled by passing one explicit timestamp argument per `now()` call the
  Python source makes (the source reads the clock three times in
  `create_short_url` and twice in `redirect_short_url`).
* `timedelta(minutes=v)` becomes `v * 60000` milliseconds.
* The three module-level stores (`url_storage`, `stats_storage`,
  `used_shortcodes`) become an explicit `AppState` record of functions from
  shortcode strings; dict assignment becomes pointwise functional update.
* `random.choices(string.ascii_letters + string.digits, k=6)` is modelled by
  a draw oracle `Nat → Fin 6 → Fin 62` giving, for each attempt, the six
  indices into the 62-character alphabet.
* `HTTPException` / pydantic `ValueError` outcomes become the `CoreError`
  kinds of the spec; every operation returns the (possibly updated) state
  together with an `Except CoreError` result, so partial mutation before a
  failure is representable.
* The logger (`global_logger`, `middleware/logging_middleware.py`) is a
  fire-and-forget sink with no influence on the core state; it is omitted.
-/

namespace UrlShortener

/-- Timestamps in milliseconds (`datetime` values in the source). -/
abbrev Timestamp := Int

/-- `timedelta(minutes=v)` in milliseconds. -/
def minutesToMs (v : Int) : Int := v * 60000

/-- Error kinds of the core, as named by the spec (§7), each tagged with the
surface the source gives it:
* `InvalidValidity`, `InvalidFormat`: pydantic `ValueError` in the
  `URLCreateRequest` validators (HTTP 422).
* `AlreadyExists`: `HTTPException(400, "Shortcode already exists")`.
* `ExhaustedAttempts`: `HTTPException(500, "Unable to generate unique shortcode")`.
* `NotFound`: `HTTPException(404, "Short URL not found")`.
* `Expired`: `HTTPException(410, "Short URL has expired")`.
* `InternalError`: the blanket `except Exception` → `HTTPException(500)` path. -/
inductive CoreError
  | InvalidValidity
  | InvalidFormat
  | AlreadyExists
  | ExhaustedAttempts
  | NotFound
  | Expired
  | InternalError
  deriving DecidableEq, Repr

/-- One entry of `url_storage` (`app.py` lines 137–142). -/
structure URLRecord where
  url : String
  created_at : Timestamp
  expiry : Timestamp
  clicks : Nat
  deriving DecidableEq, Repr

/-- One recorded click (`app.py` lines 257–263 and the `ClickData` model). -/
structure ClickData where
  timestamp : Timestamp
  source : String
  user_agent : String
  ip : String
  geographical_info : String
  deriving DecidableEq, Repr

/-- One entry of `stats_storage` (`app.py` lines 145–151). -/
structure StatsRecord where
  total_clicks : Nat
  clicks_data : List ClickData
  original_url : String
  created_at : Timestamp
  expiry : Timestamp
  deriving DecidableEq, Repr

/-- The fields of `URLCreateRequest`: `url` is kept as the raw string the
handler sees via `str(request.url)`; the pydantic `HttpUrl` parse itself is
part of the HTTP request-parsing boundary the spec excludes (§1, §6).
`validity` defaults to 30. -/
structure URLCreateRequest where
  url : String
  validity : Int := 30
  shortcode : Option String := none
  deriving DecidableEq, Repr

/-- The `URLCreateResponse` model (`shortLink`, `expiry`). -/
structure URLCreateResponse where
  shortLink : String
  expiry : Timestamp
  deriving DecidableEq, Repr

/-- The `URLStatsResponse` model returned by `get_short_url_stats`. -/
structure URLStatsResponse where
  shortcode : String
  original_url : String
  total_clicks : Nat
  created_at : Timestamp
  expiry : Timestamp
  clicks_data : List ClickData
  is_expired : Bool
  deriving DecidableEq, Repr

/-- Client-supplied inputs of a redirect request: `request.client.host`
(absent when `request.client` is `None`), the `user-agent` header and the
`referer` header (absent when not sent). -/
structure RequestInfo where
  client_ip : Option String
  user_agent : Option String
  referer : Option String
  deriving DecidableEq, Repr

/-- The three module-level stores of `app.py` (lines 31–34). -/
structure AppState where
  url_storage : String → Option URLRecord
  stats_storage : String → Option StatsRecord
  used_shortcodes : String → Bool

/-- The empty initial state (all three stores empty). -/
def emptyState : AppState where
  url_storage := fun _ => none
  stats_storage := fun _ => none
  used_shortcodes := fun _ => false

/-- Dict assignment `d[k] = v`. -/
def setStore {β : Type} (f : String → Option β) (k : String) (v : β) :
    String → Option β :=
  fun x => if x = k then some v else f x

/-- `used_shortcodes.add(k)`. -/
def addUsed (used : String → Bool) (k : String) : String → Bool :=
  fun x => if x = k then true else used x

/-- ASCII-alphanumeric test, the character class `[a-zA-Z0-9]`. -/
def isAsciiAlnum (c : Char) : Bool :=
  (('a' ≤ c) && (c ≤ 'z')) || (('A' ≤ c) && (c ≤ 'Z')) || (('0' ≤ c) && (c ≤ '9'))

/-- Python `re.match(r'^[a-zA-Z0-9]+$', s)` is truthy.  In Python's `re`
(without `MULTILINE`), `$` matches at the end of the string **or just before
a newline at the end of the string**, so the accepted language is: one or
more `[a-zA-Z0-9]` characters, optionally followed by a single final
newline. -/
def pyMatchAlnumAnchored (s : String) : Bool :=
  (!s.data.isEmpty && s.data.all isAsciiAlnum) ||
  (match s.data.getLast? with
   | some '\n' =>
       !s.data.dropLast.isEmpty && s.data.dropLast.all isAsciiAlnum
   | _ => false)

/-- The `validate_shortcode` pydantic validator (`app.py` lines 48–55):
`None` passes; otherwise require `len(v) >= 4` and
`re.match(r'^[a-zA-Z0-9]+$', v)`. -/
def validate_shortcode (v : Option String) : Bool :=
  match v with
  | none => true
  | some s => decide (4 ≤ s.length) && pyMatchAlnumAnchored s

/-- The `validate_validity` pydantic validator (`app.py` lines 42–46):
require `v > 0`. -/
def validate_validity (v : Int) : Bool := decide (0 < v)

/-- Python `s.startswith(p)`, as a structural prefix test on the character
lists. -/
def strStartsWith (s p : String) : Bool := p.data.isPrefixOf s.data

/-- `ensure_url_scheme` (`app.py` lines 93–97). -/
def ensure_url_scheme (url : String) : String :=
  if strStartsWith url "http://" || strStartsWith url "https://" then url
  else "https://" ++ url

/-- `get_geographical_info` (`app.py` lines 87–91). -/
def get_geographical_info (ip : String) : String :=
  if ip = "127.0.0.1" || ip = "localhost" then "Localhost"
  else "Unknown Location"

/-- `string.ascii_letters + string.digits`: the 62-character draw alphabet. -/
def alphabet : List Char :=
  "abcdefghijklmnopqrstuvwxyzABCDEFGHIJKLMNOPQRSTUVWXYZ0123456789".data

/-- The string built by `''.join(random.choices(alphabet, k=6))` from one
draw of six alphabet indices. -/
def shortcodeOfDraw (d : Fin 6 → Fin 62) : String :=
  String.mk ((List.finRange 6).map (fun i => alphabet.getD (d i).val 'a'))

/-- The retry loop of `generate_shortcode`: `k` is the index of the current
attempt into the draw oracle, `fuel` the number of attempts left.  Returns
the first drawn code not in `used`, or `none` when the attempts run out. -/
def genAux (draws : Nat → Fin 6 → Fin 62) (used : String → Bool) :
    Nat → Nat → Option String
  | _, 0 => none
  | k, fuel + 1 =>
      let c := shortcodeOfDraw (draws k)
      if used c then genAux draws used (k + 1) fuel else some c

/-- `generate_shortcode` (`app.py` lines 78–85): up to 100 attempts; on
success the code is added to `used_shortcodes` inside the loop and returned,
otherwise `HTTPException(500)` (`none` here, mapped to `ExhaustedAttempts`
by the caller). -/
def generate_shortcode (draws : Nat → Fin 6 → Fin 62) (used : String → Bool) :
    Option (String × (String → Bool)) :=
  match genAux draws used 0 100 with
  | some c => some (c, addUsed used c)
  | none => none

/-- `create_short_url` (`app.py` lines 114–169), including the
`URLCreateRequest` pydantic validators that run before the handler body.
`t1` is the `datetime.now()` of the expiry computation (line 134), `t2` the
one stored as the URL record's `created_at` (line 139), `t3` the one stored
as the stats entry's `created_at` (line 149).  On success the allocated
shortcode is returned alongside the response (the handler embeds it in
`shortLink`).  A validated custom shortcode has length ≥ 4, so Python's
truthiness test `if request.shortcode:` coincides with the `some` match. -/
def create_short_url (req : URLCreateRequest) (t1 t2 t3 : Timestamp)
    (draws : Nat → Fin 6 → Fin 62) (st : AppState) :
    AppState × Except CoreError (String × URLCreateResponse) :=
  if !validate_validity req.validity then (st, .error .InvalidValidity)
  else if !validate_shortcode req.shortcode then (st, .error .InvalidFormat)
  else
    let url_str := ensure_url_scheme req.url
    let alloc : Except CoreError (String × (String → Bool)) :=
      match req.shortcode with
      | some c =>
          if st.used_shortcodes c then .error .AlreadyExists
          else .ok (c, addUsed st.used_shortcodes c)
      | none =>
          match generate_shortcode draws st.used_shortcodes with
          | some p => .ok p
          | none => .error .ExhaustedAttempts
    match alloc with
    | .error e => (st, .error e)
    | .ok (sc, used') =>
        let expiry_time := t1 + minutesToMs req.validity
        let urec : URLRecord :=
          { url := url_str, created_at := t2, expiry := expiry_time, clicks := 0 }
        let srec : StatsRecord :=
          { total_clicks := 0, clicks_data := [], original_url := url_str,
            created_at := t3, expiry := expiry_time }
        ({ url_storage := setStore st.url_storage sc urec,
           stats_storage := setStore st.stats_storage sc srec,
           used_shortcodes := used' },
         .ok (sc, { shortLink := "http://localhost:8000/" ++ sc,
                    expiry := expiry_time }))

/-- `redirect_short_url` (`app.py` lines 230–281).  `t1` is the
`datetime.now()` of the expiry check (line 244), `t2` the click timestamp
(line 258).  The source increments `url_storage[shortcode]["clicks"]`
(line 254) before touching `stats_storage`, so a missing stats entry (a
`KeyError` absorbed by the blanket handler into HTTP 500) leaves that
increment behind. -/
def redirect_short_url (shortcode : String) (req : RequestInfo)
    (t1 t2 : Timestamp) (st : AppState) :
    AppState × Except CoreError String :=
  match st.url_storage shortcode with
  | none => (st, .error .NotFound)
  | some url_data =>
    if url_data.expiry < t1 then (st, .error .Expired)
    else
      let client_ip := req.client_ip.getD "unknown"
      let user_agent := req.user_agent.getD "unknown"
      let referer := req.referer.getD "direct"
      let url' := setStore st.url_storage shortcode
        { url_data with clicks := url_data.clicks + 1 }
      let click : ClickData :=
        { timestamp := t2, source := referer, user_agent := user_agent,
          ip := client_ip, geographical_info := get_geographical_info client_ip }
      match st.stats_storage shortcode with
      | none => ({ st with url_storage := url' }, .error .InternalError)
      | some s =>
          let s' := { s with total_clicks := s.total_clicks + 1,
                             clicks_data := s.clicks_data ++ [click] }
          ({ st with url_storage := url',
                     stats_storage := setStore st.stats_storage shortcode s' },
           .ok url_data.url)

/-- `get_short_url_stats` (`app.py` lines 181–228).  `t` is the
`datetime.now()` of the expiry computation (line 194).  Read-only. -/
def get_short_url_stats (shortcode : String) (t : Timestamp) (st : AppState) :
    AppState × Except CoreError URLStatsResponse :=
  match st.stats_storage shortcode with
  | none => (st, .error .NotFound)
  | some stats =>
      (st, .ok { shortcode := shortcode,
                 original_url := stats.original_url,
                 total_clicks := stats.total_clicks,
                 created_at := stats.created_at,
                 expiry := stats.expiry,
                 clicks_data := stats.clicks_data,
                 is_expired := decide (stats.expiry < t) })

/-- Modelled from the spec: §4.3 Expiry Policy,
`is_expired(record, now) = now > record.expires_at`.  The source has no
named function for this; it inlines the comparison `datetime.now() >
expiry_time` at `app.py:244` (redirect) and `app.py:194` (stats). -/
def is_expired (expires_at now : Timestamp) : Bool := decide (expires_at < now)

/-- One core operation together with the clock values and random draws its
execution consumes. -/
inductive Op
  | create (req : URLCreateRequest) (t1 t2 t3 : Timestamp)
      (draws : Nat → Fin 6 → Fin 62)
  | redirect (shortcode : String) (req : RequestInfo) (t1 t2 : Timestamp)
  | stats (shortcode : String) (t : Timestamp)

/-- The state reached by running one operation (its result is dropped). -/
def applyOp (st : AppState) : Op → AppState
  | .create req t1 t2 t3 draws => (create_short_url req t1 t2 t3 draws st).1
  | .redirect sc req t1 t2 => (redirect_short_url sc req t1 t2 st).1
  | .stats sc t => (get_short_url_stats sc t st).1

/-- The state reached by running a sequence of operations from `st`. -/
def runOps (st : AppState) (ops : List Op) : AppState :=
  ops.foldl applyOp st

/-- The state written by a successful creation: both stores gain the fresh
record under `sc` (clicks `0`, empty click list) and `sc` is reserved. -/
def createdState (st : AppState) (sc : String) (req : URLCreateRequest)
    (t1 t2 t3 : Timestamp) : AppState where
  url_storage := setStore st.url_storage sc
    { url := ensure_url_scheme req.url, created_at := t2,
      expiry := t1 + minutesToMs req.validity, clicks := 0 }
  stats_storage := setStore st.stats_storage sc
    { total_clicks := 0, clicks_data := [],
      original_url := ensure_url_scheme req.url, created_at := t3,
      expiry := t1 + minutesToMs req.validity }
  used_shortcodes := addUsed st.used_shortcodes sc

/-- The click-event dict built by `redirect_short_url` (`app.py` lines
257–263) from the request inputs and the click-time clock reading. -/
def clickOf (req : RequestInfo) (t2 : Timestamp) : ClickData :=
  { timestamp := t2,
    source := req.referer.getD "direct",
    user_agent := req.user_agent.getD "unknown",
    ip := req.client_ip.getD "unknown",
    geographical_info := get_geographical_info (req.client_ip.getD "unknown") }

/-! ### Concrete fixtures used by the witness theorems -/

/-- A draw oracle that always picks alphabet index 0, i.e. `"aaaaaa"`. -/
def constDraws : Nat → Fin 6 → Fin 62 := fun _ _ => 0

/-- The empty reserved-set. -/
def noneUsed : String → Bool := fun _ => false

/-- A redirect request that supplies no client information at all. -/
def anonRequest : RequestInfo :=
  { client_ip := none, user_agent := none, referer := none }

/-- A creation request with the custom shortcode `"abcd"`. -/
def reqCustom : URLCreateRequest :=
  { url := "https://x.com", validity := 30, shortcode := some "abcd" }

/-- A creation request whose URL has no scheme. -/
def reqSchemeless : URLCreateRequest :=
  { url := "example.com", validity := 30, shortcode := none }

/-- A creation request with the custom shortcode `"wxyz"`. -/
def reqWxyz : URLCreateRequest :=
  { url := "https://x.com", validity := 30, shortcode := some "wxyz" }

/-- A creation request whose custom shortcode is four alphanumerics followed
by a newline character. -/
def reqNewline : URLCreateRequest :=
  { url := "https://x.com", validity := 30, shortcode := some "abcd\n" }

/-- One creation (at clock `0`) followed by one redirect (expiry check at
clock `5`, click recorded at clock `6`). -/
def demoOps : List Op :=
  [.create reqCustom 0 0 0 constDraws, .redirect "abcd" anonRequest 5 6]

/-- The click event `demoOps` records. -/
def demoClick : ClickData :=
  { timestamp := 6, source := "direct", user_agent := "unknown",
    ip := "unknown", geographical_info := "Unknown Location" }

/-- The URL record held under `"abcd"` after `demoOps`. -/
def demoURLRecord : URLRecord :=
  { url := "https://x.com", created_at := 0, expiry := 1800000, clicks := 1 }

/-- The stats entry held under `"abcd"` after `demoOps`. -/
def demoStats : StatsRecord :=
  { total_clicks := 1, clicks_data := [demoClick],
    original_url := "https://x.com", created_at := 0, expiry := 1800000 }

/-- The state after `demoOps`. -/
def demoState : AppState := runOps emptyState demoOps

/-! ### Basic lemmas about the store primitives -/

theorem setStore_same {β : Type} (f : String → Option β) (k : String) (v : β) :
    setStore f k v k = some v := by simp [setStore]

theorem setStore_other {β : Type} (f : String → Option β) (k x : String) (v : β)
    (h : x ≠ k) : setStore f k v x = f x := by simp [setStore, h]

theorem addUsed_same (used : String → Bool) (k : String) :
    addUsed used k k = true := by simp [addUsed]

theorem addUsed_other (used : String → Bool) (k x : String) (h : x ≠ k) :
    addUsed used k x = used x := by simp [addUsed, h]

/-! ### The generation loop -/

theorem genAux_some_spec (draws : Nat → Fin 6 → Fin 62) (used : String → Bool) :
    ∀ (fuel k : Nat) (c : String), genAux draws used k fuel = some c →
      used c = false ∧
      ∃ j, k ≤ j ∧ j < k + fuel ∧ c = shortcodeOfDraw (draws j) ∧
        ∀ i, k ≤ i → i < j → used (shortcodeOfDraw (draws i)) = true := by
  intro fuel
  induction fuel with
  | zero => intro k c h; simp [genAux] at h
  | succ n ih =>
    intro k c h
    simp only [genAux] at h
    by_cases hu : used (shortcodeOfDraw (draws k)) = true
    · rw [if_pos hu] at h
      obtain ⟨hc, j, hkj, hjlt, hcj, hall⟩ := ih (k + 1) c h
      refine ⟨hc, j, by omega, by omega, hcj, fun i hki hij => ?_⟩
      rcases Nat.eq_or_lt_of_le hki with heq | hlt
      · rw [← heq]; exact hu
      · exact hall i hlt hij
    · rw [if_neg hu] at h
      obtain rfl : shortcodeOfDraw (draws k) = c := by
        simpa using h
      exact ⟨by simpa using hu, k, Nat.le_refl k, by omega, rfl,
        fun i hki hik => absurd (Nat.lt_of_le_of_lt hki hik) (Nat.lt_irrefl k)⟩

theorem genAux_none_iff (draws : Nat → Fin 6 → Fin 62) (used : String → Bool) :
    ∀ (fuel k : Nat), genAux draws used k fuel = none ↔
      ∀ j, k ≤ j → j < k + fuel → used (shortcodeOfDraw (draws j)) = true := by
  intro fuel
  induction fuel with
  | zero => intro k; simp [genAux]; omega
  | succ n ih =>
    intro k
    simp only [genAux]
    by_cases hu : used (shortcodeOfDraw (draws k)) = true
    · rw [if_pos hu, ih (k + 1)]
      constructor
      · intro hall j hkj hjlt
        rcases Nat.eq_or_lt_of_le hkj with heq | hlt
        · rw [← heq]; exact hu
        · exact hall j hlt (by omega)
      · intro hall j hkj hjlt
        exact hall j (by omega) (by omega)
    · rw [if_neg hu]
      simp only [reduceCtorEq, false_iff, not_forall]
      exact ⟨k, Nat.le_refl k, by omega, hu⟩

theorem generate_shortcode_some (draws : Nat → Fin 6 → Fin 62)
    (used : String → Bool) (c : String) (u' : String → Bool)
    (h : generate_shortcode draws used = some (c, u')) :
    u' = addUsed used c ∧ used c = false ∧
      ∃ j, j < 100 ∧ c = shortcodeOfDraw (draws j) ∧
        ∀ i, i < j → used (shortcodeOfDraw (draws i)) = true := by
  unfold generate_shortcode at h
  cases hg : genAux draws used 0 100 with
  | none => rw [hg] at h; exact absurd h (by simp)
  | some c0 =>
    rw [hg] at h
    obtain ⟨rfl, rfl⟩ : c0 = c ∧ addUsed used c0 = u' := by
      constructor <;> [exact congrArg Prod.fst (Option.some.inj h);
        exact congrArg Prod.snd (Option.some.inj h)]
    obtain ⟨hc, j, _, hjlt, hcj, hall⟩ := genAux_some_spec draws used 100 0 c0 hg
    exact ⟨rfl, hc, j, by omega, hcj, fun i hij => hall i (Nat.zero_le i) hij⟩

theorem generate_shortcode_none (draws : Nat → Fin 6 → Fin 62)
    (used : String → Bool) :
    generate_shortcode draws used = none ↔
      ∀ k, k < 100 → used (shortcodeOfDraw (draws k)) = true := by
  unfold generate_shortcode
  cases hg : genAux draws used 0 100 with
  | none =>
    simp only [true_iff]
    have := (genAux_none_iff draws used 100 0).mp hg
    exact fun k hk => this k (Nat.zero_le k) (by omega)
  | some c0 =>
    simp only [reduceCtorEq, false_iff, not_forall]
    obtain ⟨hc, j, _, hjlt, hcj, _⟩ := genAux_some_spec draws used 100 0 c0 hg
    exact ⟨j, by omega, by rw [← hcj]; simp [hc]⟩

theorem shortcodeOfDraw_length (d : Fin 6 → Fin 62) :
    (shortcodeOfDraw d).length = 6 := by
  simp [shortcodeOfDraw, String.length]

theorem alphabet_getD_alnum (j : Fin 62) :
    isAsciiAlnum (alphabet.getD j.val 'a') = true := by
  revert j; decide

theorem shortcodeOfDraw_alnum (d : Fin 6 → Fin 62) :
    (shortcodeOfDraw d).data.all isAsciiAlnum = true := by
  have hdata : (shortcodeOfDraw d).data =
      (List.finRange 6).map (fun i => alphabet.getD (d i).val 'a') := rfl
  rw [hdata, List.all_eq_true]
  intro c hc
  obtain ⟨i, _, rfl⟩ := List.mem_map.mp hc
  exact alphabet_getD_alnum (d i)

/-! ### Shape of the states produced by the operations -/

theorem create_short_url_cases (req : URLCreateRequest) (t1 t2 t3 : Timestamp)
    (draws : Nat → Fin 6 → Fin 62) (st : AppState) :
    (∃ e, create_short_url req t1 t2 t3 draws st = (st, .error e)) ∨
    (∃ sc, create_short_url req t1 t2 t3 draws st =
      (createdState st sc req t1 t2 t3,
       .ok (sc, { shortLink := "http://localhost:8000/" ++ sc,
                  expiry := t1 + minutesToMs req.validity }))) := by
  unfold create_short_url
  by_cases hv : validate_validity req.validity
  case neg => simp only [hv, Bool.not_false, if_pos]; exact .inl ⟨_, rfl⟩
  by_cases hs : validate_shortcode req.shortcode
  case neg =>
    simp only [hv, hs, Bool.not_true, Bool.not_false, if_pos, if_neg,
      Bool.false_eq_true, if_false]
    exact .inl ⟨_, rfl⟩
  simp only [hv, hs, Bool.not_true, Bool.false_eq_true, if_false]
  cases hreq : req.shortcode with
  | some c =>
    by_cases hused : st.used_shortcodes c
    · simp only [hused, if_pos]
      exact .inl ⟨_, rfl⟩
    · simp only [hused, Bool.false_eq_true, if_false]
      exact .inr ⟨c, rfl⟩
  | none =>
    cases hgen : generate_shortcode draws st.used_shortcodes with
    | none => exact .inl ⟨_, rfl⟩
    | some p =>
      obtain ⟨c, u'⟩ := p
      obtain ⟨rfl, -, -⟩ := generate_shortcode_some draws st.used_shortcodes c u' hgen
      exact .inr ⟨c, rfl⟩

theorem create_short_url_ok (req : URLCreateRequest) (t1 t2 t3 : Timestamp)
    (draws : Nat → Fin 6 → Fin 62) (st st' : AppState) (sc : String)
    (resp : URLCreateResponse)
    (h : create_short_url req t1 t2 t3 draws st = (st', .ok (sc, resp))) :
    st' = createdState st sc req t1 t2 t3 ∧
      resp = { shortLink := "http://localhost:8000/" ++ sc,
               expiry := t1 + minutesToMs req.validity } := by
  rcases create_short_url_cases req t1 t2 t3 draws st with ⟨e, he⟩ | ⟨sc0, hok⟩
  · rw [he] at h
    exact absurd (congrArg Prod.snd h) (by simp)
  · rw [hok] at h
    have h2 := congrArg Prod.snd h
    simp only at h2
    obtain ⟨h3, h4⟩ : sc0 = sc ∧
        ({ shortLink := "http://localhost:8000/" ++ sc0,
           expiry := t1 + minutesToMs req.validity } : URLCreateResponse) = resp := by
      have := Except.ok.inj h2
      exact ⟨congrArg Prod.fst this, congrArg Prod.snd this⟩
    subst h3
    exact ⟨(congrArg Prod.fst h).symm, h4.symm⟩

theorem create_short_url_error (req : URLCreateRequest) (t1 t2 t3 : Timestamp)
    (draws : Nat → Fin 6 → Fin 62) (st : AppState) (e : CoreError)
    (h : (create_short_url req t1 t2 t3 draws st).2 = .error e) :
    (create_short_url req t1 t2 t3 draws st).1 = st := by
  rcases create_short_url_cases req t1 t2 t3 draws st with ⟨e0, he⟩ | ⟨sc0, hok⟩
  · rw [he]
  · rw [hok] at h ⊢
    exact absurd h (by simp)

theorem get_short_url_stats_state (sc : String) (t : Timestamp) (st : AppState) :
    (get_short_url_stats sc t st).1 = st := by
  unfold get_short_url_stats
  cases st.stats_storage sc <;> rfl

theorem redirect_found (sc : String) (req : RequestInfo) (t1 t2 : Timestamp)
    (st : AppState) (r : URLRecord) (hr : st.url_storage sc = some r) :
    redirect_short_url sc req t1 t2 st =
      if r.expiry < t1 then (st, .error .Expired)
      else
        match st.stats_storage sc with
        | none =>
            ({ st with url_storage := (setStore st.url_storage sc
                { r with clicks := r.clicks + 1 }) },
             .error .InternalError)
        | some s =>
            ({ st with
               url_storage := (setStore st.url_storage sc
                 { r with clicks := r.clicks + 1 }),
               stats_storage := (setStore st.stats_storage sc
                 { s with total_clicks := s.total_clicks + 1,
                          clicks_data := s.clicks_data ++ [clickOf req t2] }) },
             .ok r.url) := by
  simp only [redirect_short_url, hr, clickOf]

/-! ### The cross-store invariant -/

/-- The invariant tying the three stores together: the URL store and the
stats store hold exactly the same shortcodes, every held shortcode is
reserved, and for each held shortcode the aggregate count equals the length
of the click list and the record's click counter. -/
def Inv (st : AppState) : Prop :=
  (∀ sc, (st.url_storage sc).isSome ↔ (st.stats_storage sc).isSome) ∧
  (∀ sc, (st.url_storage sc).isSome → st.used_shortcodes sc = true) ∧
  (∀ sc r s, st.url_storage sc = some r → st.stats_storage sc = some s →
     s.total_clicks = s.clicks_data.length ∧ s.total_clicks = r.clicks)

theorem Inv_empty : Inv emptyState := by
  refine ⟨fun sc => ?_, fun sc h => ?_, fun sc r s hr hs => ?_⟩ <;>
    simp [emptyState] at *

theorem Inv_createdState (st : AppState) (sc : String) (req : URLCreateRequest)
    (t1 t2 t3 : Timestamp) (hInv : Inv st) :
    Inv (createdState st sc req t1 t2 t3) := by
  obtain ⟨hkeys, hused, hclicks⟩ := hInv
  refine ⟨fun x => ?_, fun x hx => ?_, fun x r s hr hs => ?_⟩
  · by_cases hx : x = sc
    · subst hx; simp [createdState, setStore_same]
    · simp only [createdState, setStore_other _ _ _ _ hx]
      exact hkeys x
  · by_cases hxe : x = sc
    · subst hxe; simp [createdState, addUsed_same]
    · simp only [createdState, setStore_other _ _ _ _ hxe] at hx
      rw [show (createdState st sc req t1 t2 t3).used_shortcodes = addUsed st.used_shortcodes sc from rfl,
        addUsed_other _ _ _ hxe]
      exact hused x hx
  · by_cases hxe : x = sc
    · subst hxe
      simp only [createdState, setStore_same] at hr hs
      obtain rfl := Option.some.inj hr
      obtain rfl := Option.some.inj hs
      exact ⟨rfl, rfl⟩
    · simp only [createdState, setStore_other _ _ _ _ hxe] at hr hs
      exact hclicks x r s hr hs

theorem Inv_create (req : URLCreateRequest) (t1 t2 t3 : Timestamp)
    (draws : Nat → Fin 6 → Fin 62) (st : AppState) (hInv : Inv st) :
    Inv (create_short_url req t1 t2 t3 draws st).1 := by
  rcases create_short_url_cases req t1 t2 t3 draws st with ⟨e, he⟩ | ⟨sc, hok⟩
  · rw [he]; exact hInv
  · rw [hok]; exact Inv_createdState st sc req t1 t2 t3 hInv

theorem Inv_redirect (sc : String) (req : RequestInfo) (t1 t2 : Timestamp)
    (st : AppState) (hInv : Inv st) :
    Inv (redirect_short_url sc req t1 t2 st).1 := by
  obtain ⟨hkeys, hused, hclicks⟩ := hInv
  unfold redirect_short_url
  split
  next hurl => exact ⟨hkeys, hused, hclicks⟩
  next url_data hurl =>
    split
    next hexp => exact ⟨hkeys, hused, hclicks⟩
    next hexp =>
      simp only
      split
      next hst => exact absurd ((hkeys sc).mp (by simp [hurl])) (by simp [hst])
      next s hst =>
        simp only
        refine ⟨fun x => ?_, fun x hx => ?_, fun x r0 s0 hr0 hs0 => ?_⟩
        · by_cases hx : x = sc
          · subst hx; simp [setStore_same]
          · simp only [setStore_other _ _ _ _ hx]
            exact hkeys x
        · by_cases hxe : x = sc
          · subst hxe; exact hused x (by simp [hurl])
          · simp only [setStore_other _ _ _ _ hxe] at hx
            exact hused x hx
        · by_cases hxe : x = sc
          · subst hxe
            simp only [setStore_same] at hr0 hs0
            obtain rfl := Option.some.inj hr0
            obtain rfl := Option.some.inj hs0
            obtain ⟨h1, h2⟩ := hclicks x url_data s hurl hst
            constructor
            · simp [h1]
            · simp [h2]
          · simp only [setStore_other _ _ _ _ hxe] at hr0 hs0
            exact hclicks x r0 s0 hr0 hs0

theorem Inv_applyOp (st : AppState) (op : Op) (hInv : Inv st) :
    Inv (applyOp st op) := by
  cases op with
  | create req t1 t2 t3 draws => exact Inv_create req t1 t2 t3 draws st hInv
  | redirect sc req t1 t2 => exact Inv_redirect sc req t1 t2 st hInv
  | stats sc t =>
    show Inv (get_short_url_stats sc t st).1
    rw [get_short_url_stats_state]
    exact hInv

theorem Inv_runOps (st : AppState) (ops : List Op) (hInv : Inv st) :
    Inv (runOps st ops) := by
  induction ops generalizing st with
  | nil => exact hInv
  | cons op ops ih => exact ih (applyOp st op) (Inv_applyOp st op hInv)

/-! ### Claim theorems -/

/-- **C1.** For every shortcode present in the stores, after any sequence of
`create_short_url` and `resolve_redirect` (and `get_stats`) operations run
from the empty initial state, the stats entry's `total_clicks` equals the
length of its `clicks_data` sequence and equals the record's click counter
(all start at 0 on creation and are updated together on each successful
redirect). -/
theorem clicks_consistent_after_ops (ops : List Op) (sc : String)
    (r : URLRecord) (s : StatsRecord)
    (hr : (runOps emptyState ops).url_storage sc = some r)
    (hs : (runOps emptyState ops).stats_storage sc = some s) :
    s.total_clicks = s.clicks_data.length ∧ s.total_clicks = r.clicks :=
  (Inv_runOps emptyState ops Inv_empty).2.2 sc r s hr hs

/-- Witness for C1: after one creation and one redirect, the stats entry
under `"abcd"` counts 1 click, one click event, and the record counts 1. -/
theorem clicks_consistent_after_ops_witness :
    demoStats.total_clicks = demoStats.clicks_data.length ∧
    demoStats.total_clicks = demoURLRecord.clicks :=
  clicks_consistent_after_ops demoOps "abcd" demoURLRecord demoStats rfl rfl

/-- **C9.** After every sequence of core operations run from the empty
initial state, the URL store and the stats store hold exactly the same
shortcodes, and every held shortcode is a member of the reserved set. -/
theorem store_keysets_aligned (ops : List Op) :
    (∀ sc, ((runOps emptyState ops).url_storage sc).isSome ↔
           ((runOps emptyState ops).stats_storage sc).isSome) ∧
    (∀ sc, ((runOps emptyState ops).url_storage sc).isSome →
           (runOps emptyState ops).used_shortcodes sc = true) :=
  ⟨(Inv_runOps emptyState ops Inv_empty).1,
   (Inv_runOps emptyState ops Inv_empty).2.1⟩

/-- Witness for C9 at the concrete run `demoOps` and shortcode `"abcd"`. -/
theorem store_keysets_aligned_witness :
    ((runOps emptyState demoOps).stats_storage "abcd").isSome = true ∧
    (runOps emptyState demoOps).used_shortcodes "abcd" = true :=
  ⟨((store_keysets_aligned demoOps).1 "abcd").mp rfl,
   (store_keysets_aligned demoOps).2 "abcd" rfl⟩

/-- **C2.** Resolving a redirect for a shortcode whose record is expired at
the check time returns the `Expired` error and leaves the whole state
unchanged: no click event is appended and no counter is incremented. -/
theorem expired_redirect_rejected (st : AppState) (sc : String) (r : URLRecord)
    (req : RequestInfo) (t1 t2 : Timestamp)
    (hr : st.url_storage sc = some r) (hexp : is_expired r.expiry t1 = true) :
    redirect_short_url sc req t1 t2 st = (st, .error .Expired) := by
  have hlt : r.expiry < t1 := of_decide_eq_true hexp
  rw [redirect_found sc req t1 t2 st r hr, if_pos hlt]

/-- Witness for C2: one millisecond past expiry, the demo state is returned
untouched together with the `Expired` error. -/
theorem expired_redirect_rejected_witness :
    redirect_short_url "abcd" anonRequest 1800001 1800002 demoState =
      (demoState, .error .Expired) :=
  expired_redirect_rejected demoState "abcd" demoURLRecord anonRequest
    1800001 1800002 rfl (by decide)

/-- **C3.** `is_expired` holds exactly when `now` is strictly greater than
the record's expiry; a record checked exactly at its expiry instant is not
expired while one millisecond later it is; and the same strict comparison
governs both the redirect path and the stats report. -/
theorem expiry_policy_strict (st : AppState) (sc sc2 : String) (r : URLRecord)
    (s : StatsRecord) (req : RequestInfo) (t1 t2 t : Timestamp)
    (hr : st.url_storage sc = some r) (hs : st.stats_storage sc2 = some s) :
    (is_expired r.expiry t1 = true ↔ r.expiry < t1) ∧
    is_expired r.expiry r.expiry = false ∧
    is_expired r.expiry (r.expiry + 1) = true ∧
    ((redirect_short_url sc req t1 t2 st).2 = .error .Expired ↔
      is_expired r.expiry t1 = true) ∧
    (∃ resp, (get_short_url_stats sc2 t st).2 = .ok resp ∧
      resp.is_expired = is_expired s.expiry t) := by
  refine ⟨by simp [is_expired], by simp [is_expired], by simp [is_expired], ?_, ?_⟩
  · rw [redirect_found sc req t1 t2 st r hr]
    by_cases hlt : r.expiry < t1
    · simp [if_pos hlt, is_expired, hlt]
    · rw [if_neg hlt]
      simp only [is_expired, decide_eq_true_eq]
      constructor
      · intro h
        cases hstats : st.stats_storage sc <;> rw [hstats] at h <;> simp at h
      · intro h
        exact absurd h hlt
  · simp only [get_short_url_stats, hs]
    exact ⟨_, rfl, rfl⟩

/-- Witness for C3 at the demo state (expiry 1800000, checks at 5 and 7). -/
theorem expiry_policy_strict_witness :
    (is_expired demoURLRecord.expiry 5 = true ↔ demoURLRecord.expiry < 5) ∧
    is_expired demoURLRecord.expiry demoURLRecord.expiry = false ∧
    is_expired demoURLRecord.expiry (demoURLRecord.expiry + 1) = true ∧
    ((redirect_short_url "abcd" anonRequest 5 6 demoState).2 =
        .error .Expired ↔ is_expired demoURLRecord.expiry 5 = true) ∧
    (∃ resp, (get_short_url_stats "abcd" 7 demoState).2 = .ok resp ∧
      resp.is_expired = is_expired demoStats.expiry 7) :=
  expiry_policy_strict demoState "abcd" "abcd" demoURLRecord demoStats
    anonRequest 5 6 7 rfl rfl

/-- **C4.** Round-trip with scheme normalization: a successful creation for
the scheme-less URL `"example.com"` with validity 30 stores
`"https://example.com"` (the `https://` prefix prepended before storage),
and a subsequent stats lookup on the returned shortcode reports that
`original_url` and `total_clicks = 0`. -/
theorem roundtrip_scheme_normalization (st st' : AppState)
    (t1 t2 t3 t : Timestamp) (draws : Nat → Fin 6 → Fin 62) (sc : String)
    (resp : URLCreateResponse)
    (h : create_short_url { url := "example.com", validity := 30, shortcode := none }
        t1 t2 t3 draws st = (st', .ok (sc, resp))) :
    ∃ snap, (get_short_url_stats sc t st').2 = .ok snap ∧
      snap.original_url = "https://example.com" ∧ snap.total_clicks = 0 := by
  obtain ⟨rfl, -⟩ := create_short_url_ok _ t1 t2 t3 draws st st' sc resp h
  have hstats : (createdState st sc
      { url := "example.com", validity := 30, shortcode := none } t1 t2 t3).stats_storage sc =
      some { total_clicks := 0, clicks_data := [],
             original_url := ensure_url_scheme "example.com", created_at := t3,
             expiry := t1 + minutesToMs 30 } := by
    simp [createdState, setStore_same]
  simp only [get_short_url_stats, hstats]
  exact ⟨_, rfl, rfl, rfl⟩

/-- Witness for C4: the creation runs from the empty state with the constant
draw oracle, allocating `"aaaaaa"`. -/
theorem roundtrip_scheme_normalization_witness :
    ∃ snap, (get_short_url_stats "aaaaaa" 9
        (createdState emptyState "aaaaaa" reqSchemeless 0 0 0)).2 = .ok snap ∧
      snap.original_url = "https://example.com" ∧ snap.total_clicks = 0 :=
  roundtrip_scheme_normalization emptyState _ 0 0 0 9 constDraws "aaaaaa"
    { shortLink := "http://localhost:8000/aaaaaa", expiry := 1800000 } rfl

/-- Counterexample to **C5** as stated: `create_short_url` reads the clock
three separate times (`app.py` lines 134, 139, 149).  Run with the readings
0, 1, 2 (the clock advancing 1 ms between reads), the stored record has
`expiry = 0 + 30 minutes = 1800000` but `created_at = 1`, so
`expires_at ≠ created_at + validity`, and the URL record's `created_at` (1)
differs from the stats entry's `created_at` (2). -/
theorem creation_uses_three_clock_readings :
    (create_short_url reqWxyz 0 1 2 constDraws emptyState).1.url_storage "wxyz" =
      some { url := "https://x.com", created_at := 1, expiry := 1800000, clicks := 0 } ∧
    (create_short_url reqWxyz 0 1 2 constDraws emptyState).1.stats_storage "wxyz" =
      some { total_clicks := 0, clicks_data := [], original_url := "https://x.com",
             created_at := 2, expiry := 1800000 } ∧
    ¬ ((1800000 : Timestamp) = 1 + minutesToMs reqWxyz.validity) ∧
    ¬ ((1 : Timestamp) = 2) :=
  ⟨rfl, rfl, by decide, by decide⟩

/-- **C5 (amended).** For every successful `create_short_url` call, the
stored record satisfies `expires_at = t1 + validity_minutes` exactly, where
`t1` is the clock reading taken for the expiry computation; the URL record's
`created_at` and the stats entry's `created_at` are two later clock
readings, and whenever the clock does not advance during the call
(`t1 = t2 = t3`) the original claim holds: `expires_at = created_at +
validity_minutes` and the two stored `created_at` values coincide. -/
theorem expiry_anchored_to_first_reading (req : URLCreateRequest)
    (t1 t2 t3 : Timestamp) (draws : Nat → Fin 6 → Fin 62) (st st' : AppState)
    (sc : String) (resp : URLCreateResponse)
    (h : create_short_url req t1 t2 t3 draws st = (st', .ok (sc, resp))) :
    ∃ r s, st'.url_storage sc = some r ∧ st'.stats_storage sc = some s ∧
      r.expiry = t1 + minutesToMs req.validity ∧ s.expiry = r.expiry ∧
      r.created_at = t2 ∧ s.created_at = t3 ∧
      (t1 = t2 → t2 = t3 →
        r.expiry = r.created_at + minutesToMs req.validity ∧
        r.created_at = s.created_at) := by
  obtain ⟨rfl, -⟩ := create_short_url_ok req t1 t2 t3 draws st st' sc resp h
  refine ⟨_, _, setStore_same _ _ _, setStore_same _ _ _, rfl, rfl, rfl, rfl, ?_⟩
  intro h12 h23
  subst h12
  subst h23
  exact ⟨rfl, rfl⟩

/-- Witness for the amended C5, with all three clock readings equal to 0. -/
theorem expiry_anchored_to_first_reading_witness :
    ∃ r s, (createdState emptyState "wxyz" reqWxyz 0 0 0).url_storage "wxyz" = some r ∧
      (createdState emptyState "wxyz" reqWxyz 0 0 0).stats_storage "wxyz" = some s ∧
      r.expiry = 0 + minutesToMs reqWxyz.validity ∧ s.expiry = r.expiry ∧
      r.created_at = 0 ∧ s.created_at = 0 ∧
      ((0 : Timestamp) = 0 → (0 : Timestamp) = 0 →
        r.expiry = r.created_at + minutesToMs reqWxyz.validity ∧
        r.created_at = s.created_at) :=
  expiry_anchored_to_first_reading reqWxyz 0 0 0 constDraws emptyState _ "wxyz"
    { shortLink := "http://localhost:8000/wxyz", expiry := 1800000 } rfl

/-- **C6** — evaluation at the failing input.  The custom shortcode
`"abcd\n"` contains a non-alphanumeric character (the final newline), yet
the `validate_shortcode` check passes it — Python's `re.match(r'^[a-zA-Z0-9]+$', v)`
lets `$` match just before a trailing newline — and the creation succeeds
and reserves the code instead of failing with `InvalidFormat`, contradicting
the validator's own message "Shortcode can only contain alphanumeric
characters". -/
theorem newline_shortcode_accepted :
    validate_shortcode (some "abcd\n") = true ∧
    "abcd\n".data.all isAsciiAlnum = false ∧
    create_short_url reqNewline 0 0 0 constDraws emptyState =
      (createdState emptyState "abcd\n" reqNewline 0 0 0,
       .ok ("abcd\n", { shortLink := "http://localhost:8000/abcd\n",
                        expiry := 1800000 })) ∧
    (createdState emptyState "abcd\n" reqNewline 0 0 0).used_shortcodes "abcd\n" = true :=
  ⟨by decide, by decide, rfl, rfl⟩

/-- **C7.** With no custom shortcode, the allocator draws 6-character codes
over `[A-Za-z0-9]`: the first of at most 100 draws that is not already
reserved is reserved and returned, and if all 100 draws collide the
generation fails (`ExhaustedAttempts`). -/
theorem generation_first_fresh_bounded (draws : Nat → Fin 6 → Fin 62)
    (used : String → Bool) :
    (∀ c u', generate_shortcode draws used = some (c, u') →
      c.length = 6 ∧ c.data.all isAsciiAlnum = true ∧ used c = false ∧
      u' = addUsed used c ∧
      ∃ k, k < 100 ∧ c = shortcodeOfDraw (draws k) ∧
        ∀ i, i < k → used (shortcodeOfDraw (draws i)) = true) ∧
    (generate_shortcode draws used = none ↔
      ∀ k, k < 100 → used (shortcodeOfDraw (draws k)) = true) := by
  constructor
  · intro c u' h
    obtain ⟨hu', hc, j, hj, hcj, hall⟩ := generate_shortcode_some draws used c u' h
    refine ⟨?_, ?_, hc, hu', j, hj, hcj, hall⟩
    · rw [hcj]; exact shortcodeOfDraw_length (draws j)
    · rw [hcj]; exact shortcodeOfDraw_alnum (draws j)
  · exact generate_shortcode_none draws used

/-- Witness for C7: with an empty reserved-set and the constant draw oracle,
the very first draw `"aaaaaa"` is taken. -/
theorem generation_first_fresh_bounded_witness :
    "aaaaaa".length = 6 ∧ "aaaaaa".data.all isAsciiAlnum = true ∧
    noneUsed "aaaaaa" = false ∧
    addUsed noneUsed "aaaaaa" = addUsed noneUsed "aaaaaa" ∧
    ∃ k, k < 100 ∧ "aaaaaa" = shortcodeOfDraw (constDraws k) ∧
      ∀ i, i < k → noneUsed (shortcodeOfDraw (constDraws i)) = true :=
  (generation_first_fresh_bounded constDraws noneUsed).1 "aaaaaa"
    (addUsed noneUsed "aaaaaa") rfl

/-- **C8.** Every click event recorded by a successful redirect carries
`source = "direct"` when no referrer was supplied, `user_agent = "unknown"`
when absent, `ip = "unknown"` when unavailable, and its geo hint is
`"Localhost"` exactly when the client IP is `"127.0.0.1"` or `"localhost"`,
and `"Unknown Location"` otherwise. -/
theorem click_event_fields (st : AppState) (sc : String) (r : URLRecord)
    (s : StatsRecord) (req : RequestInfo) (t1 t2 : Timestamp)
    (hr : st.url_storage sc = some r) (hs : st.stats_storage sc = some s)
    (hlive : is_expired r.expiry t1 = false) :
    ∃ st', redirect_short_url sc req t1 t2 st = (st', .ok r.url) ∧
      st'.stats_storage sc = some { s with
        total_clicks := s.total_clicks + 1,
        clicks_data := s.clicks_data ++ [clickOf req t2] } ∧
      (req.referer = none → (clickOf req t2).source = "direct") ∧
      (req.user_agent = none → (clickOf req t2).user_agent = "unknown") ∧
      (req.client_ip = none → (clickOf req t2).ip = "unknown") ∧
      ((clickOf req t2).geographical_info = "Localhost" ↔
        ((clickOf req t2).ip = "127.0.0.1" ∨ (clickOf req t2).ip = "localhost")) ∧
      (¬ ((clickOf req t2).ip = "127.0.0.1" ∨ (clickOf req t2).ip = "localhost") →
        (clickOf req t2).geographical_info = "Unknown Location") := by
  have hnlt : ¬ r.expiry < t1 := by
    intro hlt
    rw [show is_expired r.expiry t1 = true from decide_eq_true hlt] at hlive
    cases hlive
  rw [redirect_found sc req t1 t2 st r hr]
  rw [if_neg hnlt]
  simp only [hs]
  refine ⟨_, rfl, setStore_same _ _ _, ?_, ?_, ?_, ?_, ?_⟩
  · intro h; simp [clickOf, h]
  · intro h; simp [clickOf, h]
  · intro h; simp [clickOf, h]
  · by_cases h1 : (clickOf req t2).ip = "127.0.0.1"
    · simp [clickOf, get_geographical_info, h1] at h1 ⊢
      simp [h1]
    · by_cases h2 : (clickOf req t2).ip = "localhost"
      · simp only [clickOf] at h1 h2 ⊢
        simp [get_geographical_info, h2]
      · simp only [clickOf] at h1 h2 ⊢
        simp [get_geographical_info, h1, h2]
  · intro h
    push_neg at h
    obtain ⟨h1, h2⟩ := h
    simp only [clickOf] at h1 h2 ⊢
    simp [get_geographical_info, h1, h2]

/-- Witness for C8: a redirect on the demo state with no client information
supplied yields a click event with all three defaults and the
`"Unknown Location"` geo hint. -/
theorem click_event_fields_witness :
    ∃ st', redirect_short_url "abcd" anonRequest 5 6 demoState =
        (st', .ok demoURLRecord.url) ∧
      st'.stats_storage "abcd" = some { demoStats with
        total_clicks := demoStats.total_clicks + 1,
        clicks_data := demoStats.clicks_data ++ [clickOf anonRequest 6] } ∧
      (anonRequest.referer = none → (clickOf anonRequest 6).source = "direct") ∧
      (anonRequest.user_agent = none →
        (clickOf anonRequest 6).user_agent = "unknown") ∧
      (anonRequest.client_ip = none → (clickOf anonRequest 6).ip = "unknown") ∧
      ((clickOf anonRequest 6).geographical_info = "Localhost" ↔
        ((clickOf anonRequest 6).ip = "127.0.0.1" ∨
          (clickOf anonRequest 6).ip = "localhost")) ∧
      (¬ ((clickOf anonRequest 6).ip = "127.0.0.1" ∨
          (clickOf anonRequest 6).ip = "localhost") →
        (clickOf anonRequest 6).geographical_info = "Unknown Location") :=
  click_event_fields demoState "abcd" demoURLRecord demoStats anonRequest 5 6
    rfl rfl (by decide)

end UrlShortener
